import Mathlib

/-!
Verification of the route handlers in main.py (a FastAPI tutorial file).

The handlers are embedded as total Lean functions over a small JSON-like
value type.  Responses that are Python dicts become insertion-ordered
association lists; Python float fields are embedded as rationals; Python
truthiness of optional strings and numbers is made explicit.  The
framework-owned routing table is embedded as the ordered list of route
declarations of main.py, dispatched by first match.
-/

namespace FastApiTutorial

/-- Values appearing in the responses of main.py: strings, integers,
numbers (Python floats, embedded as rationals), null, lists of strings,
and lists of string-to-string records (the fixed demo tables). -/
inductive Val where
  | vStr (s : String)
  | vInt (n : Int)
  | vNum (q : ℚ)
  | vNull
  | vStrList (xs : List String)
  | vRows (rows : List (List (String × String)))
deriving DecidableEq, Repr

/-- A response dict: an insertion-ordered association list, as Python dicts are. -/
abbrev Dict := List (String × Val)

/-- Python dict.update with a single key: replace the value in place when the
key is present, append otherwise. -/
def dictSet (d : Dict) (k : String) (v : Val) : Dict :=
  if d.any (fun p => p.1 = k) then d.map (fun p => if p.1 = k then (k, v) else p)
  else d ++ [(k, v)]

/-- Look a key up in a response dict (first binding wins, as in a dict). -/
def getKey (d : Dict) (k : String) : Option Val :=
  (d.find? (fun p => p.1 = k)).map (fun p => p.2)

/-- Python truthiness of an optional string: None and the empty string are falsy. -/
def strTruthy : Option String → Bool
  | none => false
  | some s => s ≠ ""

/-- Python truthiness of an optional number: None and 0.0 are falsy. -/
def numTruthy : Option ℚ → Bool
  | none => false
  | some t => t ≠ 0

/-- Shared pattern of main.py: if q: result.update({"q": q}) for an optional q. -/
def addQ (d : Dict) (q : Option String) : Dict :=
  if strTruthy q then dictSet d "q" (Val.vStr (q.getD "")) else d

/-- Shared pattern of main.py: if q: result.update({"q": q}) for a required q. -/
def addQStr (d : Dict) (q : String) : Dict :=
  if q ≠ "" then dictSet d "q" (Val.vStr q) else d

/-- CPython slice normalisation for s[i:j] on a list of length n: a negative
index counts from the end and is clamped below at 0, a nonnegative index is
clamped above at n. -/
def sliceIdx (n : Nat) (k : Int) : Nat :=
  if k < 0 then ((n : Int) + k).toNat else min k.toNat n

/-- Python list slicing xs[i:j] with the default step 1. -/
def pythonSlice {α : Type} (xs : List α) (i j : Int) : List α :=
  (xs.drop (sliceIdx xs.length i)).take (sliceIdx xs.length j - sliceIdx xs.length i)

/-- fake_items_db of main.py, line 13: the fixed three-item sample list. -/
def fake_items_db : List Dict :=
  [[("item_name", Val.vStr "Foo")], [("item_name", Val.vStr "Bar")],
   [("item_name", Val.vStr "Baz")]]

/-- The Item record of main.py, lines 17-21; float fields embedded as rationals. -/
structure Item where
  name : String
  description : Option String := none
  price : ℚ
  tax : Option ℚ := none
deriving DecidableEq, Repr

/-- Pydantic item.dict(): the ordered fields of an Item, None rendered as null. -/
def Item.dict (item : Item) : Dict :=
  [("name", Val.vStr item.name),
   ("description", match item.description with
     | some s => Val.vStr s
     | none => Val.vNull),
   ("price", Val.vNum item.price),
   ("tax", match item.tax with
     | some t => Val.vNum t
     | none => Val.vNull)]

/-- ModelName of main.py, lines 57-60: a closed string enumeration. -/
inductive ModelName where
  | alexnet
  | resnet
  | lenet
deriving DecidableEq, Repr

/-- The string value of each ModelName member. -/
def ModelName.value : ModelName → String
  | .alexnet => "alexnet"
  | .resnet => "resnet"
  | .lenet => "lenet"

/-- Modelled from the spec: the framework-side enumeration-membership check for
the path parameter of GET /models/\x7bmodel_name\x7d ("enumeration membership
constraints" are "delegated"; "GET /models/unknown is rejected before reaching
handler logic").  A raw path segment binds to a ModelName member exactly when
it is one of the three declared string values. -/
def modelNameFromStr (s : String) : Option ModelName :=
  if s = "alexnet" then some ModelName.alexnet
  else if s = "resnet" then some ModelName.resnet
  else if s = "lenet" then some ModelName.lenet
  else none

/-! Handlers of main.py, in declaration order. -/

/-- root, line 30. -/
def root : Dict := [("message", Val.vStr "Hello World")]

/-- read_item, line 41: GET /items/\x7bitem_id\x7d. -/
def read_item (item_id : Int) : Dict := [("item_id", Val.vInt item_id)]

/-- read_user_me, line 47: GET /users/me. -/
def read_user_me : Dict := [("user_id", Val.vStr "the current user")]

/-- read_user, line 52: GET /users/\x7buser_id\x7d. -/
def read_user (user_id : String) : Dict := [("user_id", Val.vStr user_id)]

/-- get_model, lines 65-75: alexnet checked first by identity, then the
value compared with "lenet", then the residual branch. -/
def get_model (model_name : ModelName) : Dict :=
  if model_name = ModelName.alexnet then
    [("model_name", Val.vStr model_name.value), ("message", Val.vStr "Deep Learning FTW!")]
  else if model_name.value = "lenet" then
    [("model_name", Val.vStr model_name.value), ("message", Val.vStr "LeCNN all the images")]
  else
    [("model_name", Val.vStr model_name.value), ("message", Val.vStr "Have some residuals")]

/-- read_file, line 80: GET /files/\x7bfile_path:path\x7d. -/
def read_file (file_path : String) : Dict := [("file_path", Val.vStr file_path)]

/-- read_item_query, lines 90-95: GET /query/ returns
fake_items_db[skip : skip + limit]. -/
def read_item_query (skip : Int := 0) (limit : Int := 10) : List Dict :=
  pythonSlice fake_items_db skip (skip + limit)

/-- read_item_optional, lines 100-103. -/
def read_item_optional (item_id : String) (q : Option String := none) : Dict :=
  if strTruthy q then [("item_id", Val.vStr item_id), ("q", Val.vStr (q.getD ""))]
  else [("item_id", Val.vStr item_id)]

/-- read_item_bool, lines 109-124. -/
def read_item_bool (item_id : String) (q : Option String := none)
    (short : Bool := false) : Dict :=
  let item : Dict := [("item_id", Val.vStr item_id)]
  let item := addQ item q
  if !short then
    dictSet item "description"
      (Val.vStr "This is an amazing item that has a long description")
  else item

/-- read_user_item, lines 131-141. -/
def read_user_item (user_id : Int) (item_id : String) (q : Option String := none)
    (short : Bool := false) : Dict :=
  let item : Dict := [("item_id", Val.vStr item_id), ("owner_id", Val.vInt user_id)]
  let item := addQ item q
  if !short then
    dictSet item "description"
      (Val.vStr "This is an amazing item that has a long description")
  else item

/-- read_user_item_required, lines 149-158. -/
def read_user_item_required (item_id : String) (needy : String) (skip : Int := 0)
    (limit : Option Int := none) : Dict :=
  [("item_id", Val.vStr item_id), ("needy", Val.vStr needy),
   ("skip", Val.vInt skip),
   ("limit", match limit with
     | some n => Val.vInt n
     | none => Val.vNull)]

/-- create_item, lines 164-171: the price_with_tax field is added only when
item.tax is truthy (present and nonzero). -/
def create_item (item : Item) : Dict :=
  let item_dict := item.dict
  match item.tax with
  | some t =>
    if t ≠ 0 then dictSet item_dict "price_with_tax" (Val.vNum (item.price + t))
    else item_dict
  | none => item_dict

/-- create_item_body_path, lines 176-177: the first PUT /request/items/\x7bitem_id\x7d. -/
def create_item_body_path (item_id : Int) (item : Item) : Dict :=
  ("item_id", Val.vInt item_id) :: item.dict

/-- create_item_query, lines 182-188: the second PUT /request/items/\x7bitem_id\x7d. -/
def create_item_query (item_id : Int) (item : Item) (q : Option String := none) : Dict :=
  let result := ("item_id", Val.vInt item_id) :: item.dict
  addQ result q

/-- The fixed two-row table shared by the /params/ handlers. -/
def paramsItems : Dict :=
  [("items", Val.vRows [[("item_id", "Foo")], [("item_id", "Bar")]])]

/-- read_items at line 196: GET /params/items/. -/
def read_items_max_length (q : Option String := none) : Dict := addQ paramsItems q

/-- read_items at line 208: GET /params/default/. -/
def read_items_default (q : String := "fixedquery") : Dict := addQStr paramsItems q

/-- read_items at line 225: GET /params/required/ (first definition). -/
def read_items_required (q : String) : Dict := addQStr paramsItems q

/-- read_items at line 234: GET /params/none/. -/
def read_items_none (q : Option String) : Dict := addQ paramsItems q

/-- read_items at line 244: GET /params/required/ (second definition). -/
def read_items_required2 (q : String) : Dict := addQStr paramsItems q

/-- read_items at line 254: GET /params/multiple/. -/
def read_items_multiple (q : Option (List String) := none) : Dict :=
  [("q", match q with
    | some xs => Val.vStrList xs
    | none => Val.vNull)]

/-- read_items at line 266: GET /params/multiple/defaults/. -/
def read_items_multiple_defaults (q : List String := ["foo", "bar"]) : Dict :=
  [("q", Val.vStrList q)]

/-- read_items at lines 274-281: second GET /items/\x7bitem_id\x7d declaration. -/
def read_items_path_title (item_id : Int) (q : Option String := none) : Dict :=
  addQ [("item_id", Val.vInt item_id)] q

/-- read_items at line 286: third GET /items/\x7bitem_id\x7d declaration. -/
def read_items_order (q : String) (item_id : Int) : Dict :=
  addQStr [("item_id", Val.vInt item_id)] q

/-- read_items at lines 295-303: fourth (last) GET /items/\x7bitem_id\x7d declaration,
with the required query parameter q and the numeric bounds on item_id. -/
def read_items_numeric (item_id : Int) (q : String) : Dict :=
  addQStr [("item_id", Val.vInt item_id)] q

/-- Modelled from the spec: the framework-side collection of a repeated query
parameter into an ordered sequence ("repeated query parameters collected into
an ordered sequence with optional default sequence").  Given the query pairs
of the URL in order, the values of the given key are collected in that order;
when the key never appears the parameter binds to None. -/
def collectRepeated (key : String) (params : List (String × String)) :
    Option (List String) :=
  let vs := params.filterMap (fun p => if p.1 = key then some p.2 else none)
  if vs = [] then none else some vs

/-! Routing table. -/

/-- HTTP methods used by main.py. -/
inductive Method where
  | GET
  | POST
  | PUT
deriving DecidableEq, Repr

/-- One segment of a path template: a literal, an integer parameter, a string
parameter (one nonempty slash-free segment), or a greedy path parameter. -/
inductive Seg where
  | lit (s : String)
  | pInt
  | pStr
  | pPath
deriving DecidableEq, Repr

/-- Identifiers of the handlers of main.py, in declaration order. -/
inductive HandlerId where
  | root
  | read_item
  | read_user_me
  | read_user
  | get_model
  | read_file
  | read_item_query
  | read_item_optional
  | read_item_bool
  | read_user_item
  | read_user_item_required
  | create_item
  | create_item_body_path
  | create_item_query
  | read_items_max_length
  | read_items_default
  | read_items_required
  | read_items_none
  | read_items_required2
  | read_items_multiple
  | read_items_multiple_defaults
  | read_items_path_title
  | read_items_order
  | read_items_numeric
deriving DecidableEq, Repr

/-- A route declaration: method, path template, handler.  A request path is a
list of slash-separated segments; a trailing slash appears as a final empty
segment. -/
structure Route where
  method : Method
  pattern : List Seg
  handler : HandlerId
deriving DecidableEq, Repr

/-- Match a path template against the segments of a request path.  An integer
parameter accepts a nonempty run of digits, a string parameter any nonempty
segment, and a path parameter the whole remaining path. -/
def matchPat : List Seg → List String → Bool
  | [], [] => true
  | Seg.lit s :: ps, x :: xs => s = x && matchPat ps xs
  | Seg.pInt :: ps, x :: xs => (x.data ≠ [] && x.data.all Char.isDigit) && matchPat ps xs
  | Seg.pStr :: ps, x :: xs => x ≠ "" && matchPat ps xs
  | Seg.pPath :: _, _ => true
  | _, _ => false

/-- The routing table of main.py: every route decorator of the file, in
declaration order.  Dispatch semantics are modelled from the spec: routes are
tried in declaration order and the first match wins ("static routes must be
declared before dynamic ones matching the same prefix to avoid shadowing"). -/
def routes : List Route :=
  [⟨Method.GET, [Seg.lit ""], HandlerId.root⟩,
   ⟨Method.GET, [Seg.lit "items", Seg.pInt], HandlerId.read_item⟩,
   ⟨Method.GET, [Seg.lit "users", Seg.lit "me"], HandlerId.read_user_me⟩,
   ⟨Method.GET, [Seg.lit "users", Seg.pStr], HandlerId.read_user⟩,
   ⟨Method.GET, [Seg.lit "models", Seg.pStr], HandlerId.get_model⟩,
   ⟨Method.GET, [Seg.lit "files", Seg.pPath], HandlerId.read_file⟩,
   ⟨Method.GET, [Seg.lit "query", Seg.lit ""], HandlerId.read_item_query⟩,
   ⟨Method.GET, [Seg.lit "query", Seg.lit "optional", Seg.pStr],
     HandlerId.read_item_optional⟩,
   ⟨Method.GET, [Seg.lit "query", Seg.pStr], HandlerId.read_item_bool⟩,
   ⟨Method.GET, [Seg.lit "users", Seg.pInt, Seg.lit "items", Seg.pStr],
     HandlerId.read_user_item⟩,
   ⟨Method.GET, [Seg.lit "query", Seg.lit "items", Seg.pStr],
     HandlerId.read_user_item_required⟩,
   ⟨Method.POST, [Seg.lit "request", Seg.lit "items", Seg.lit ""],
     HandlerId.create_item⟩,
   ⟨Method.PUT, [Seg.lit "request", Seg.lit "items", Seg.pInt],
     HandlerId.create_item_body_path⟩,
   ⟨Method.PUT, [Seg.lit "request", Seg.lit "items", Seg.pInt],
     HandlerId.create_item_query⟩,
   ⟨Method.GET, [Seg.lit "params", Seg.lit "items", Seg.lit ""],
     HandlerId.read_items_max_length⟩,
   ⟨Method.GET, [Seg.lit "params", Seg.lit "default", Seg.lit ""],
     HandlerId.read_items_default⟩,
   ⟨Method.GET, [Seg.lit "params", Seg.lit "required", Seg.lit ""],
     HandlerId.read_items_required⟩,
   ⟨Method.GET, [Seg.lit "params", Seg.lit "none", Seg.lit ""],
     HandlerId.read_items_none⟩,
   ⟨Method.GET, [Seg.lit "params", Seg.lit "required", Seg.lit ""],
     HandlerId.read_items_required2⟩,
   ⟨Method.GET, [Seg.lit "params", Seg.lit "multiple", Seg.lit ""],
     HandlerId.read_items_multiple⟩,
   ⟨Method.GET, [Seg.lit "params", Seg.lit "multiple", Seg.lit "defaults", Seg.lit ""],
     HandlerId.read_items_multiple_defaults⟩,
   ⟨Method.GET, [Seg.lit "items", Seg.pInt], HandlerId.read_items_path_title⟩,
   ⟨Method.GET, [Seg.lit "items", Seg.pInt], HandlerId.read_items_order⟩,
   ⟨Method.GET, [Seg.lit "items", Seg.pInt], HandlerId.read_items_numeric⟩]

/-- Dispatch a request: the handler of the first route whose method and
pattern match, None when no route matches. -/
def dispatch (m : Method) (path : List String) : Option HandlerId :=
  (routes.find? (fun r => r.method = m && matchPat r.pattern path)).map
    (fun r => r.handler)

/-- The framework-side coercion of an integer path segment (a nonempty digit
run) to an integer, reading the decimal digits left to right. -/
def decodeIntSeg (s : String) : Option Int :=
  if s.data ≠ [] && s.data.all Char.isDigit then
    some (s.data.foldl (fun acc c => 10 * acc + ((c.toNat : Int) - 48)) 0)
  else none

/-! Supporting lemmas. -/

/-- A Python slice of a list is a sublist of it. -/
theorem pythonSlice_sublist {α : Type} (xs : List α) (i j : Int) :
    (pythonSlice xs i j).Sublist xs := by
  unfold pythonSlice
  exact ((xs.drop (sliceIdx xs.length i)).take_sublist _).trans (xs.drop_sublist _)

/-- A Python slice never exceeds the length of the list. -/
theorem pythonSlice_length_le {α : Type} (xs : List α) (i j : Int) :
    (pythonSlice xs i j).length ≤ xs.length :=
  (pythonSlice_sublist xs i j).length_le

/-! Claim theorems. -/

/-- Claim C1, counterexample: for GET /items/5 the routing table does not
dispatch to the last of the definitions of GET /items/\x7bitem_id\x7d
(read_items at lines 295-303); it dispatches to the first one (read_item,
line 41), because routes are tried in declaration order. -/
theorem dispatch_items5_not_last :
    dispatch Method.GET ["items", "5"] = some HandlerId.read_item ∧
    dispatch Method.GET ["items", "5"] ≠ some HandlerId.read_items_numeric := by
  decide

/-- Claim C1, amended: for a request GET /items/5, the routing table (in which
the first of the definitions of GET /items/\x7bitem_id\x7d wins, routes being
tried in declaration order) dispatches to read_item, the path segment "5" is
coerced to the integer 5, and the response is exactly the mapping
item_id maps-to 5. -/
theorem dispatch_items5_read_item :
    dispatch Method.GET ["items", "5"] = some HandlerId.read_item ∧
    decodeIntSeg "5" = some 5 ∧
    read_item 5 = [("item_id", Val.vInt 5)] := by
  decide

/-- Claim C2: every request GET /users/me dispatches to the static handler
read_user_me, whose response is user_id maps-to "the current user", and never
to the dynamic handler read_user, because the static route is declared before
the dynamic one in the routing table. -/
theorem dispatch_users_me_static :
    dispatch Method.GET ["users", "me"] = some HandlerId.read_user_me ∧
    dispatch Method.GET ["users", "me"] ≠ some HandlerId.read_user ∧
    read_user_me = [("user_id", Val.vStr "the current user")] := by
  decide

/-- Claim C3, counterexample: PUT /request/items/5 dispatches to the first
definition of PUT /request/items/\x7bitem_id\x7d (create_item_body_path), not
to the second (create_item_query): the first declaration shadows the second,
not the other way round. -/
theorem dispatch_put_request_items_first :
    dispatch Method.PUT ["request", "items", "5"] =
      some HandlerId.create_item_body_path ∧
    dispatch Method.PUT ["request", "items", "5"] ≠
      some HandlerId.create_item_query := by
  decide

/-- Claim C3, amended: PUT /request/items/\x7bitem_id\x7d is defined twice and
the first definition (create_item_body_path) shadows the second
(create_item_query); moreover, for every item_id and every Item, when the
optional query parameter q is absent, the second handler response equals the
first handler response, namely item_id maps-to item_id merged with the item
fields. -/
theorem create_item_put_routes_agree :
    dispatch Method.PUT ["request", "items", "5"] =
      some HandlerId.create_item_body_path ∧
    ∀ (item_id : Int) (item : Item),
      create_item_query item_id item none = create_item_body_path item_id item ∧
      create_item_body_path item_id item =
        ("item_id", Val.vInt item_id) :: item.dict := by
  refine ⟨by decide, fun item_id item => ⟨?_, rfl⟩⟩
  simp [create_item_query, create_item_body_path, addQ, strTruthy]

/-- Claim C4: posting the Item with name "a", no description, price 10 and
tax 2 to create_item returns those same fields plus price_with_tax equal
to 12. -/
theorem create_item_tax_example :
    create_item ⟨"a", none, 10, some 2⟩ =
      [("name", Val.vStr "a"), ("description", Val.vNull),
       ("price", Val.vNum 10), ("tax", Val.vNum 2),
       ("price_with_tax", Val.vNum 12)] := by
  norm_num [create_item, Item.dict, dictSet]
  decide

/-- Claim C5: GET /query/ with skip 0 and limit 2 returns the first two
entries of the fixed three-item sample list, which itself is unchanged. -/
theorem read_item_query_first_two :
    read_item_query 0 2 =
      [[("item_name", Val.vStr "Foo")], [("item_name", Val.vStr "Bar")]] ∧
    read_item_query 0 2 = fake_items_db.take 2 ∧
    fake_items_db =
      [[("item_name", Val.vStr "Foo")], [("item_name", Val.vStr "Bar")],
       [("item_name", Val.vStr "Baz")]] := by
  decide

/-- Claim C6: when the query parameter q of GET /params/multiple/ appears
several times, the handler returns q maps-to the list of all supplied values
in URL order; in particular q=foo then q=bar yields the list foo, bar. -/
theorem read_items_multiple_order :
    read_items_multiple (collectRepeated "q" [("q", "foo"), ("q", "bar")]) =
      [("q", Val.vStrList ["foo", "bar"])] ∧
    ∀ vs : List String,
      collectRepeated "q" (vs.map (fun v => ("q", v))) =
        if vs = [] then none else some vs := by
  refine ⟨by decide, fun vs => ?_⟩
  have hfun : ((fun p : String × String => if p.1 = "q" then some p.2 else none) ∘
      fun v : String => ("q", v)) = some := by
    funext v
    simp
  unfold collectRepeated
  rw [List.filterMap_map, hfun, List.filterMap_some]

/-- Claim C7: the three members of the ModelName enumeration produce three
pairwise-distinct message fields (two members agree on the message exactly
when they are equal), and a path value binds to a ModelName exactly when it is
one of the three enumeration strings, so a value such as "unknown" is rejected
before get_model runs. -/
theorem get_model_messages_distinct :
    getKey (get_model ModelName.alexnet) "message" =
      some (Val.vStr "Deep Learning FTW!") ∧
    getKey (get_model ModelName.lenet) "message" =
      some (Val.vStr "LeCNN all the images") ∧
    getKey (get_model ModelName.resnet) "message" =
      some (Val.vStr "Have some residuals") ∧
    (∀ m m' : ModelName,
      getKey (get_model m) "message" = getKey (get_model m') "message" ↔ m = m') ∧
    modelNameFromStr "unknown" = none ∧
    ∀ s : String,
      (modelNameFromStr s).isSome ↔ (s = "alexnet" ∨ s = "resnet" ∨ s = "lenet") := by
  refine ⟨by decide, by decide, by decide, ?_, by decide, fun s => ?_⟩
  · intro m m'
    cases m <;> cases m' <;> decide
  · unfold modelNameFromStr
    split_ifs with h1 h2 h3 <;> simp_all

/-- Claim C8: every handler of main.py is a total function of its well-typed
arguments: each one returns a value for every argument tuple; in particular
the slice taken by read_item_query is defined for every pair of integers and
is a sublist of the sample list, and the arithmetic of create_item is defined
for every price and tax, the response always carrying the price field. -/
theorem handlers_total :
    (∀ skip limit : Int, (read_item_query skip limit).Sublist fake_items_db) ∧
    (∀ item : Item, getKey (create_item item) "price" = some (Val.vNum item.price)) ∧
    (∃ r, root = r) ∧
    (∀ item_id : Int, ∃ r, read_item item_id = r) ∧
    (∃ r, read_user_me = r) ∧
    (∀ user_id : String, ∃ r, read_user user_id = r) ∧
    (∀ m : ModelName, ∃ r, get_model m = r) ∧
    (∀ fp : String, ∃ r, read_file fp = r) ∧
    (∀ skip limit : Int, ∃ r, read_item_query skip limit = r) ∧
    (∀ i q, ∃ r, read_item_optional i q = r) ∧
    (∀ i q b, ∃ r, read_item_bool i q b = r) ∧
    (∀ u i q b, ∃ r, read_user_item u i q b = r) ∧
    (∀ i n sk l, ∃ r, read_user_item_required i n sk l = r) ∧
    (∀ item : Item, ∃ r, create_item item = r) ∧
    (∀ iid item, ∃ r, create_item_body_path iid item = r) ∧
    (∀ iid item q, ∃ r, create_item_query iid item q = r) ∧
    (∀ q, ∃ r, read_items_max_length q = r) ∧
    (∀ q, ∃ r, read_items_default q = r) ∧
    (∀ q, ∃ r, read_items_required q = r) ∧
    (∀ q, ∃ r, read_items_none q = r) ∧
    (∀ q, ∃ r, read_items_required2 q = r) ∧
    (∀ q, ∃ r, read_items_multiple q = r) ∧
    (∀ q, ∃ r, read_items_multiple_defaults q = r) ∧
    (∀ iid q, ∃ r, read_items_path_title iid q = r) ∧
    (∀ q iid, ∃ r, read_items_order q iid = r) ∧
    (∀ iid q, ∃ r, read_items_numeric iid q = r) := by
  refine ⟨fun skip limit => pythonSlice_sublist fake_items_db skip (skip + limit),
    fun item => ?_, ⟨_, rfl⟩, fun _ => ⟨_, rfl⟩, ⟨_, rfl⟩, fun _ => ⟨_, rfl⟩,
    fun _ => ⟨_, rfl⟩, fun _ => ⟨_, rfl⟩, fun _ _ => ⟨_, rfl⟩,
    fun _ _ => ⟨_, rfl⟩, fun _ _ _ => ⟨_, rfl⟩, fun _ _ _ _ => ⟨_, rfl⟩,
    fun _ _ _ _ => ⟨_, rfl⟩, fun _ => ⟨_, rfl⟩, fun _ _ => ⟨_, rfl⟩,
    fun _ _ _ => ⟨_, rfl⟩, fun _ => ⟨_, rfl⟩, fun _ => ⟨_, rfl⟩,
    fun _ => ⟨_, rfl⟩, fun _ => ⟨_, rfl⟩, fun _ => ⟨_, rfl⟩, fun _ => ⟨_, rfl⟩,
    fun _ => ⟨_, rfl⟩, fun _ _ => ⟨_, rfl⟩, fun _ _ => ⟨_, rfl⟩,
    fun _ _ => ⟨_, rfl⟩⟩
  cases h : item.tax with
  | none => simp [create_item, h, Item.dict, getKey]
  | some t =>
    by_cases ht : t = 0 <;> simp [create_item, h, ht, Item.dict, getKey, dictSet]

/-- Claim C9: when the tax field of an Item is present but equal to zero, the
response of create_item contains no price_with_tax key, because the handler
guards the computation with the truthiness of tax. -/
theorem create_item_zero_tax_no_key (item : Item) (h : item.tax = some 0) :
    getKey (create_item item) "price_with_tax" = none := by
  simp [create_item, h, Item.dict, getKey]

/-- Claim C9, witness: the concrete Item with price 10 and tax 0 has a present
but zero tax and its create_item response has no price_with_tax key. -/
theorem create_item_zero_tax_no_key_witness :
    (Item.mk "a" none 10 (some 0)).tax = some 0 ∧
    getKey (create_item (Item.mk "a" none 10 (some 0))) "price_with_tax" = none :=
  ⟨rfl, create_item_zero_tax_no_key (Item.mk "a" none 10 (some 0)) rfl⟩

/-- Claim C10: read_item_query applies Python end-relative slice semantics to
a negative skip: skip -1 with limit 10 returns exactly the last sample entry,
and skip -1 with limit 1 returns the empty list since the normalised endpoint
precedes the start. -/
theorem read_item_query_negative_skip :
    read_item_query (-1) 10 = [[("item_name", Val.vStr "Baz")]] ∧
    read_item_query (-1) 1 = [] := by
  decide

end FastApiTutorial
